import Mathlib

/-!
Verification development for the dicom-python worklist repository.

Shallow embedding of the repository's worklist logic:
  - the JSON projection of a DICOM dataset (`dataset_to_dict` in
    src/tools/utils.py lines 40-65, duplicated in src/dicom_tools.py
    lines 655-680), together with a model of CPython's
    `bytes.decode("utf-8", "ignore")` codec;
  - the C-FIND worklist query construction and response loop
    (`get_worklist` / `get_worklist_dataset` in src/dicom_tools.py and
    src/tools/dicom_communication.py);
  - the C-ECHO operation (`c_echo`) and its caller-side status
    classification;
  - the C-STORE path (`send_worklist_item`);
  - the display projection (`display_worklist`);
  - the CLI command dispatch of src/worklist_cli.py;
  - the two duplicated worklist-item constructors
    (`create_worklist_item` in src/worklist.py and in
    src/tools/worklist_manager.py).
-/

/-- A JSON value, as produced by the repository's dataset-to-dict
projection before serialization. -/
inductive JValue where
  | jstr (s : String)
  | jnull
  | jarr (items : List JValue)
  | jobj (fields : List (String × JValue))
deriving Repr

/-- UTF-8 encoding of one unicode scalar value, following the UTF-8
specification (RFC 3629), as CPython's utf-8 codec emits it. -/
def utf8EncodeChar (c : Char) : List Nat :=
  if c.toNat < 0x80 then [c.toNat]
  else if c.toNat < 0x800 then
    [0xC0 + c.toNat / 64, 0x80 + c.toNat % 64]
  else if c.toNat < 0x10000 then
    [0xE0 + c.toNat / 4096, 0x80 + c.toNat / 64 % 64, 0x80 + c.toNat % 64]
  else
    [0xF0 + c.toNat / 262144, 0x80 + c.toNat / 4096 % 64,
     0x80 + c.toNat / 64 % 64, 0x80 + c.toNat % 64]

/-- UTF-8 encoding of a string (the byte values of CPython's
`s.encode("utf-8")`). -/
def utf8Encode (s : String) : List Nat :=
  s.data.foldr (fun c acc => utf8EncodeChar c ++ acc) []

/-- Pending state of the UTF-8 decoding automaton: the accumulated
scalar value so far, the number of continuation bytes still expected,
and the allowed range for the next continuation byte (restricted after
leads E0, ED, F0 and F4, exactly as in the Unicode well-formedness
table that CPython's DFA decoder implements). -/
structure Utf8Pending where
  acc : Nat
  remaining : Nat
  lo : Nat
  hi : Nat
deriving Repr

/-- Classify a byte arriving with no pending sequence: an ASCII byte is
emitted, a valid lead byte opens a pending sequence, any other byte
(stray continuation, overlong lead C0/C1, invalid lead above F4) is
dropped by the `ignore` error handler. -/
def utf8LeadStep (b : Nat) : Option Char × Option Utf8Pending :=
  if b < 0x80 then (some (Char.ofNat b), none)
  else if b < 0xC2 then (none, none)
  else if b ≤ 0xDF then (none, some ⟨b - 0xC0, 1, 0x80, 0xBF⟩)
  else if b = 0xE0 then (none, some ⟨0, 2, 0xA0, 0xBF⟩)
  else if b = 0xED then (none, some ⟨0xD, 2, 0x80, 0x9F⟩)
  else if b ≤ 0xEF then (none, some ⟨b - 0xE0, 2, 0x80, 0xBF⟩)
  else if b = 0xF0 then (none, some ⟨0, 3, 0x90, 0xBF⟩)
  else if b ≤ 0xF3 then (none, some ⟨b - 0xF0, 3, 0x80, 0xBF⟩)
  else if b = 0xF4 then (none, some ⟨4, 3, 0x80, 0x8F⟩)
  else (none, none)

/-- Decoder core for CPython's `bytes.decode("utf-8", "ignore")`: bytes
that do not form a valid UTF-8 sequence (invalid lead bytes, missing or
malformed continuation bytes, overlong forms, surrogates, values past
0x10FFFF) are dropped, valid sequences are decoded; after an invalid
continuation byte the decoder restarts at that byte. -/
def utf8DecodeAux : Option Utf8Pending → List Nat → List Char
  | _, [] => []
  | none, b :: rest =>
    match utf8LeadStep b with
    | (some c, _) => c :: utf8DecodeAux none rest
    | (none, st) => utf8DecodeAux st rest
  | some p, b :: rest =>
    if p.lo ≤ b ∧ b ≤ p.hi then
      if p.remaining ≤ 1 then
        Char.ofNat (p.acc * 64 + (b - 0x80)) :: utf8DecodeAux none rest
      else
        utf8DecodeAux (some ⟨p.acc * 64 + (b - 0x80), p.remaining - 1, 0x80, 0xBF⟩) rest
    else
      match utf8LeadStep b with
      | (some c, _) => c :: utf8DecodeAux none rest
      | (none, st) => utf8DecodeAux st rest

/-- The string produced by CPython's `bytes.decode("utf-8", "ignore")`. -/
def utf8DecodeIgnore (b : List Nat) : String :=
  String.mk (utf8DecodeAux none b)

/-- The placeholder string the projection substitutes for binary data:
src/tools/utils.py lines 55 and 60. -/
def binaryPlaceholder (n : Nat) : String :=
  "[Binary data with length " ++ toString n ++ " bytes]"

/-- One element of a pydicom dataset as the projection distinguishes
them: VR `SQ` or not, value `None`, `bytes`, or other (string-like). -/
inductive DElem where
  | strElem (name : String) (val : String)
  | bytesElem (name : String) (val : List Nat)
  | noneElem (name : String)
  | seqElem (name : String) (items : List (List DElem))
  | seqNoneElem (name : String)
deriving Repr

/-- The dict value for a binary (non-SQ, `bytes`) element:
src/tools/utils.py lines 52-60. `Pixel Data` becomes the length
placeholder; any other byte value is decoded with
`elem.value.decode("utf-8", "ignore")` (the `except` fallback on line 60
is unreachable because the `ignore` error handler never raises). -/
def bytesEntryValue (name : String) (b : List Nat) : JValue :=
  if name = "Pixel Data" then JValue.jstr (binaryPlaceholder b.length)
  else JValue.jstr (utf8DecodeIgnore b)

mutual

/-- Model of `dataset_to_dict` (src/tools/utils.py lines 40-65 and its
duplicate src/dicom_tools.py lines 655-680): an ordered dict mapping
element names to projected values. -/
def dataset_to_dict : List DElem → List (String × JValue)
  | [] => []
  | e :: rest => elemEntry e :: dataset_to_dict rest

/-- The dict entry for one element of the dataset. -/
def elemEntry : DElem → String × JValue
  | .strElem n s => (n, JValue.jstr s)
  | .bytesElem n b => (n, bytesEntryValue n b)
  | .noneElem n => (n, JValue.jnull)
  | .seqElem n items => (n, JValue.jarr (seqItems items))
  | .seqNoneElem n => (n, JValue.jnull)

/-- Projection of a sequence (VR `SQ`) value: each item is recursively
projected to an object. -/
def seqItems : List (List DElem) → List JValue
  | [] => []
  | it :: rest => JValue.jobj (dataset_to_dict it) :: seqItems rest

end

/-- Truthiness of an optional string under Python rules: `None` and the
empty string are falsy, any other string is truthy. -/
def pyTruthy : Option String → Bool
  | none => false
  | some s => !(s == "")

/-- The one Scheduled-Procedure-Step item of the C-FIND query dataset,
as built by `get_worklist` (src/dicom_tools.py lines 291-308,
src/tools/dicom_communication.py lines 100-117). -/
structure FindSps where
  scheduledProcedureStepStartDate : String
  scheduledProcedureStepStartTime : String
  modality : String
deriving Repr, DecidableEq

/-- The C-FIND query dataset built by `get_worklist`
(src/dicom_tools.py lines 280-309, src/tools/dicom_communication.py
lines 89-118). -/
structure FindQuery where
  queryRetrieveLevel : String
  patientName : String
  patientID : String
  accessionNumber : String
  requestedProcedureDescription : String
  studyInstanceUID : String
  scheduledProcedureStepSequence : List FindSps
deriving Repr, DecidableEq

/-- The ScheduledProcedureStepStartDate value: src/dicom_tools.py lines
294-299. Both dates truthy gives the hyphen-joined range, only the
start date truthy gives it alone, otherwise the empty string. -/
def spsStartDateField (startDate endDate : Option String) : String :=
  if pyTruthy startDate && pyTruthy endDate then
    startDate.getD "" ++ "-" ++ endDate.getD ""
  else if pyTruthy startDate then startDate.getD ""
  else ""

/-- Model of the query-dataset construction shared by `get_worklist`
(src/dicom_tools.py lines 280-309, src/tools/dicom_communication.py
lines 89-118) and the `dataset is None` branch of
`get_worklist_dataset` (src/dicom_tools.py lines 731-762). -/
def buildFindQuery (startDate endDate patientName modality : Option String) : FindQuery :=
  ⟨"WORKLIST",
   match patientName with
   | none => "*"
   | some p => p,
   "", "", "", "",
   [⟨spsStartDateField startDate endDate, "",
     if pyTruthy modality then modality.getD "" else ""⟩]⟩

/-- The query dataset actually sent by `get_worklist_dataset`
(src/dicom_tools.py lines 730-762): the caller-provided dataset when
given, otherwise the default construction. -/
def getWorklistDatasetQuery (dataset : Option FindQuery)
    (startDate endDate patientName modality : Option String) : FindQuery :=
  dataset.getD (buildFindQuery startDate endDate patientName modality)

/-- Attributes of the first Scheduled-Procedure-Step item of a returned
worklist dataset, as read by `display_worklist`; `none` models an
absent attribute. -/
structure SpsAttrs where
  scheduledProcedureStepStartDate : Option String
  scheduledProcedureStepStartTime : Option String
  modality : Option String
  scheduledStationName : Option String
  scheduledStationAETitle : Option String
deriving Repr, DecidableEq

/-- A worklist dataset returned by the C-FIND exchange, as the display
code reads it; `none` models an absent attribute, and `none` in the
sequence field models a missing or empty
ScheduledProcedureStepSequence. -/
structure WorklistItemData where
  patientName : Option String
  patientID : Option String
  accessionNumber : Option String
  requestedProcedureDescription : Option String
  studyInstanceUID : Option String
  scheduledProcedureStepSequence : Option SpsAttrs
deriving Repr, DecidableEq

/-- One `(status, dataset)` pair yielded by `assoc.send_c_find`:
`status none` models a falsy/absent status object, `dataset none` a
falsy/absent response dataset. -/
structure FindResponse where
  status : Option Nat
  dataset : Option WorklistItemData
deriving Repr, DecidableEq

/-- The response loop of `get_worklist` (src/dicom_tools.py lines
313-322, src/tools/dicom_communication.py lines 122-130): a dataset is
appended whenever the status is truthy and a dataset is present; a
falsy status is only logged and the loop continues. -/
def collectFindResponses : List FindResponse → List WorklistItemData
  | [] => []
  | r :: rest =>
    match r.status, r.dataset with
    | some _, some d => d :: collectFindResponses rest
    | some _, none => collectFindResponses rest
    | none, _ => collectFindResponses rest

/-- Model of `get_worklist` after the query is built (src/dicom_tools.py
lines 276-327): a failed association raises, otherwise the collected
response datasets are returned; the C-FIND status is never surfaced. -/
def getWorklistModel (assocEstablished : Bool) (responses : List FindResponse) :
    Except String (List WorklistItemData) :=
  if assocEstablished then Except.ok (collectFindResponses responses)
  else Except.error "Association failed"

/-- Outcome of `c_echo` (src/dicom_tools.py lines 209-248,
src/tools/dicom_communication.py lines 18-57) as visible to its caller:
either the returned status value or one of the two raised exceptions. -/
inductive EchoOutcome where
  | returned (status : Nat)
  | raisedEchoError
  | raisedAssociationFailed
deriving Repr, DecidableEq

/-- Behaviour of the peer during a C-ECHO exchange: whether the
association is accepted and the status returned by `send_c_echo`
(`none` models a falsy status object). -/
structure EchoPeer where
  acceptAssociation : Bool
  echoStatus : Option Nat
deriving Repr, DecidableEq

/-- Model of `c_echo`: the caller-visible outcome together with the
number of C-ECHO requests sent (the code sends exactly one request per
established association and never retries). -/
def cEchoModel (peer : EchoPeer) : EchoOutcome × Nat :=
  if peer.acceptAssociation then
    match peer.echoStatus with
    | some s => (EchoOutcome.returned s, 1)
    | none => (EchoOutcome.raisedEchoError, 1)
  else (EchoOutcome.raisedAssociationFailed, 0)

/-- The caller-side classification of an echo status (src/dicom_tools.py
lines 855-858): status `0` is reported as success, any other status as
a failure naming that status. -/
inductive EchoReport where
  | success
  | operationFailed (status : Nat)
deriving Repr, DecidableEq

/-- Classify a returned echo status as the caller of `c_echo` does. -/
def classifyEchoStatus (status : Nat) : EchoReport :=
  if status = 0 then EchoReport.success else EchoReport.operationFailed status

/-- Behaviour of the peer during a C-STORE exchange: whether the
association is accepted and the status returned by `send_c_store`
(`none` models a falsy status object). -/
structure StorePeer where
  acceptAssociation : Bool
  storeStatus : Option Nat
deriving Repr, DecidableEq

/-- The error diagnostic emitted by `send_worklist_item` on its failure
paths (src/tools/worklist_manager.py lines 163-181, src/dicom_tools.py
lines 531-549). -/
inductive StoreDiagnostic where
  | associationFailed (ipAddress : String) (port : Nat) (remoteAe : String)
  | storeFailedStatus (status : Nat)
  | storeNoStatus
deriving Repr, DecidableEq

/-- Caller-visible outcome of `send_worklist_item`: the boolean result,
whether `send_c_store` was invoked, and the error diagnostic emitted,
if any. -/
structure StoreOutcome where
  result : Bool
  cStoreInvoked : Bool
  diagnostic : Option StoreDiagnostic
deriving Repr, DecidableEq

/-- Model of `send_worklist_item` (src/tools/worklist_manager.py lines
107-190, src/dicom_tools.py lines 475-558) from association onwards: a
rejected association returns `False` before any C-STORE is sent; an
established association sends exactly one C-STORE and maps status `0`
to `True` and anything else to `False`. -/
def sendWorklistItemModel (peer : StorePeer) (ipAddress : String) (port : Nat)
    (remoteAe : String) : StoreOutcome :=
  if peer.acceptAssociation then
    match peer.storeStatus with
    | some s =>
      if s = 0 then ⟨true, true, none⟩
      else ⟨false, true, some (StoreDiagnostic.storeFailedStatus s)⟩
    | none => ⟨false, true, some StoreDiagnostic.storeNoStatus⟩
  else ⟨false, false, some (StoreDiagnostic.associationFailed ipAddress port remoteAe)⟩

/-- One worklist item as `display_worklist` projects it to JSON
(src/tools/worklist_manager.py lines 279-296, src/dicom_tools.py lines
348-365): every value goes through `str(getattr(item, name, "N/A"))`,
and the Scheduled-Procedure-Step fields are added only when the
sequence is present and non-empty. -/
structure WorklistJsonItem where
  patientName : JValue
  patientID : JValue
  accessionNumber : JValue
  requestedProcedureDescription : JValue
  studyInstanceUID : JValue
  scheduledDate : Option JValue
  scheduledTime : Option JValue
  modality : Option JValue
  stationName : Option JValue
  stationAETitle : Option JValue

/-- The JSON value for one displayed attribute: the attribute value when
present, the literal string `N/A` when absent. -/
def jsonAttr (v : Option String) : JValue :=
  JValue.jstr (v.getD "N/A")

/-- The JSON projection of one worklist item built by `display_worklist`
when the output format is `json`. -/
def displayWorklistJsonItem (it : WorklistItemData) : WorklistJsonItem :=
  ⟨jsonAttr it.patientName, jsonAttr it.patientID, jsonAttr it.accessionNumber,
   jsonAttr it.requestedProcedureDescription, jsonAttr it.studyInstanceUID,
   (it.scheduledProcedureStepSequence).map
     (fun sps => jsonAttr sps.scheduledProcedureStepStartDate),
   (it.scheduledProcedureStepSequence).map
     (fun sps => jsonAttr sps.scheduledProcedureStepStartTime),
   (it.scheduledProcedureStepSequence).map (fun sps => jsonAttr sps.modality),
   (it.scheduledProcedureStepSequence).map (fun sps => jsonAttr sps.scheduledStationName),
   (it.scheduledProcedureStepSequence).map (fun sps => jsonAttr sps.scheduledStationAETitle)⟩

/-- The lines `display_worklist` prints for one worklist item in text
format (src/tools/worklist_manager.py lines 302-316, src/dicom_tools.py
lines 371-385), without the enumeration header. -/
def displayWorklistTextLines (it : WorklistItemData) : List String :=
  ["  Patient: " ++ it.patientName.getD "N/A",
   "  Patient ID: " ++ it.patientID.getD "N/A",
   "  Accession: " ++ it.accessionNumber.getD "N/A"]
  ++ (match it.scheduledProcedureStepSequence with
      | some sps =>
        ["  Date: " ++ sps.scheduledProcedureStepStartDate.getD "N/A",
         "  Time: " ++ sps.scheduledProcedureStepStartTime.getD "N/A",
         "  Modality: " ++ sps.modality.getD "N/A",
         "  Station: " ++ sps.scheduledStationName.getD "N/A"]
      | none => [])
  ++ ["  Description: " ++ it.requestedProcedureDescription.getD "N/A"]

/-- Model of `create_worklist_command` (src/worklist_cli.py lines
82-129): returns `False` exactly when the upload result contains an
`error` key. -/
def createCommandModel (uploadHasError : Bool) : Bool :=
  !uploadHasError

/-- Model of `list_worklists_command` (src/worklist_cli.py lines
131-169): returns `False` exactly when the query result is an error
object. -/
def listCommandModel (queryHasError : Bool) : Bool :=
  !queryHasError

/-- Model of `get_worklist_command` (src/worklist_cli.py lines 171-194):
returns `False` exactly when the details result is an error object. -/
def getCommandModel (detailsHasError : Bool) : Bool :=
  !detailsHasError

/-- Number of successful uploads counted by `batch_create_command`
(src/worklist_cli.py lines 211-246); the count is only logged. -/
def batchSuccessCount (uploadResults : List Bool) : Nat :=
  uploadResults.countP (fun b => b)

/-- Model of `batch_create_command` (src/worklist_cli.py lines 196-252):
returns `False` when the JSON file cannot be read or does not hold a
list; after processing the items it returns `True` unconditionally,
whatever the per-item upload results were. -/
def batchCommandModel (fileReadOk isList : Bool) (uploadResults : List Bool) : Bool :=
  if !fileReadOk then false
  else if !isList then false
  else
    let _ := batchSuccessCount uploadResults
    true

/-- One CLI invocation of src/worklist_cli.py, abstracted over the
outcomes of the REST calls the chosen subcommand performs. -/
inductive CliInvocation where
  | createCmd (uploadHasError : Bool)
  | listCmd (queryHasError : Bool)
  | getCmd (detailsHasError : Bool)
  | batchCmd (fileReadOk : Bool) (isList : Bool) (uploadResults : List Bool)
  | noCommand
deriving Repr, DecidableEq

/-- Model of `main` (src/worklist_cli.py lines 254-276): dispatch to the
command handler and exit with `0` if it returned `True`, else `1`; a
missing subcommand prints help and exits `1`. -/
def cliMainExit : CliInvocation → Nat
  | CliInvocation.createCmd e => if createCommandModel e then 0 else 1
  | CliInvocation.listCmd e => if listCommandModel e then 0 else 1
  | CliInvocation.getCmd e => if getCommandModel e then 0 else 1
  | CliInvocation.batchCmd f l u => if batchCommandModel f l u then 0 else 1
  | CliInvocation.noCommand => 1

/-- The arguments shared by the two duplicated `create_worklist_item`
constructors (src/worklist.py lines 12-26 and
src/tools/worklist_manager.py lines 19-34); the manager copy takes one
further argument, `scheduled_station_ae_title`. -/
structure WorklistArgs where
  patientName : String
  patientID : String
  accessionNumber : String
  startDate : String
  startTime : String
  modality : String
  description : String
  stationName : String
  physicianName : String
  birthDate : String
  sex : String
  alerts : String
  allergies : String
deriving Repr, DecidableEq

/-- The Scheduled-Procedure-Step item of a created worklist dataset. -/
structure SpsData where
  scheduledStationAETitle : String
  scheduledProcedureStepStartDate : String
  scheduledProcedureStepStartTime : String
  modality : String
  scheduledPerformingPhysicianName : String
  scheduledProcedureStepDescription : String
  scheduledProcedureStepID : String
  scheduledStationName : String
deriving Repr, DecidableEq

/-- A created worklist dataset; `Option` fields are the attributes the
constructors set only when the corresponding argument is truthy. -/
structure WorklistItemDataset where
  specificCharacterSet : String
  patientName : String
  patientID : String
  patientBirthDate : Option String
  patientSex : Option String
  sps : SpsData
  requestedProcedureID : String
  requestedProcedureDescription : String
  accessionNumber : String
  referringPhysicianName : Option String
  medicalAlerts : Option String
  contrastAllergies : Option String
  studyInstanceUID : String
deriving Repr, DecidableEq

/-- An attribute set only when the argument string is truthy (Python
`if arg:`). -/
def optIfNonempty (s : String) : Option String :=
  if s = "" then none else some s

/-- Model of `create_worklist_item` in src/worklist.py (lines 12-96).
The three freshly generated identifiers (`generate_uid()` calls for
ScheduledProcedureStepID, RequestedProcedureID and StudyInstanceUID)
are passed in explicitly. `ScheduledStationAETitle` is set from the
`scheduled_station_name` argument (line 64). -/
def createWorklistItemWorklist (a : WorklistArgs) (spsUid reqUid studyUid : String) :
    WorklistItemDataset :=
  ⟨"ISO_IR 100", a.patientName, a.patientID,
   optIfNonempty a.birthDate, optIfNonempty a.sex,
   ⟨a.stationName, a.startDate, a.startTime, a.modality, "",
    a.description, spsUid, a.stationName⟩,
   reqUid, a.description, a.accessionNumber,
   optIfNonempty a.physicianName, optIfNonempty a.alerts, optIfNonempty a.allergies,
   studyUid⟩

/-- Model of `create_worklist_item` in src/tools/worklist_manager.py
(lines 19-105), also duplicated in src/dicom_tools.py (lines 387-473).
It takes a separate `scheduled_station_ae_title` argument, defaulting
to `STATION1`, and sets `ScheduledStationAETitle` from it (line 73). -/
def createWorklistItemManager (a : WorklistArgs) (scheduledStationAeTitle : String)
    (spsUid reqUid studyUid : String) : WorklistItemDataset :=
  ⟨"ISO_IR 100", a.patientName, a.patientID,
   optIfNonempty a.birthDate, optIfNonempty a.sex,
   ⟨scheduledStationAeTitle, a.startDate, a.startTime, a.modality, "",
    a.description, spsUid, a.stationName⟩,
   reqUid, a.description, a.accessionNumber,
   optIfNonempty a.physicianName, optIfNonempty a.alerts, optIfNonempty a.allergies,
   studyUid⟩

/-- Overwrite the station AE title of a created dataset; used to state
that the two constructors agree on everything else. -/
def setStationAeTitle (d : WorklistItemDataset) (t : String) : WorklistItemDataset :=
  { d with sps := { d.sps with scheduledStationAETitle := t } }

/-- A worklist item with every attribute absent, as a returned dataset
can be. -/
def emptyDisplayItem : WorklistItemData :=
  ⟨none, none, none, none, none, none⟩

/-- A concrete worklist item, used as a returned C-FIND dataset. -/
def sampleFindItem : WorklistItemData :=
  ⟨some "Doe^John", some "JD12345", some "ACC001", some "Ultrasound", some "1.2.3.4",
   some ⟨some "20250101", some "101010", some "US", some "STATION1", some "STATION1"⟩⟩

/-- A concrete argument assignment for the two worklist-item
constructors, with a station name different from the manager copy's
default AE title. -/
def stationTwoArgs : WorklistArgs :=
  ⟨"Doe^John", "JD12345", "ACC001", "20250101", "101010", "US", "Ultrasound",
   "STATION2", "", "", "", "", ""⟩

/-- Unfolding equation for the decoder with no pending sequence. -/
theorem utf8DecodeAux_none_cons (b : Nat) (rest : List Nat) :
    utf8DecodeAux none (b :: rest) =
      match utf8LeadStep b with
      | (some c, _) => c :: utf8DecodeAux none rest
      | (none, st) => utf8DecodeAux st rest := rfl

/-- Unfolding equation for the decoder with a pending sequence. -/
theorem utf8DecodeAux_pending_cons (a r lo hi b : Nat) (rest : List Nat) :
    utf8DecodeAux (some ⟨a, r, lo, hi⟩) (b :: rest) =
      if lo ≤ b ∧ b ≤ hi then
        if r ≤ 1 then
          Char.ofNat (a * 64 + (b - 0x80)) :: utf8DecodeAux none rest
        else
          utf8DecodeAux (some ⟨a * 64 + (b - 0x80), r - 1, 0x80, 0xBF⟩) rest
      else
        match utf8LeadStep b with
        | (some c, _) => c :: utf8DecodeAux none rest
        | (none, st) => utf8DecodeAux st rest := rfl

/-- Lead-byte classification: ASCII byte. -/
theorem utf8LeadStep_ascii (b : Nat) (h : b < 0x80) :
    utf8LeadStep b = (some (Char.ofNat b), none) := by
  rw [utf8LeadStep, if_pos h]

/-- Lead-byte classification: two-byte lead C2..DF. -/
theorem utf8LeadStep_twoByte (b : Nat) (hlo : 0xC2 ≤ b) (hhi : b ≤ 0xDF) :
    utf8LeadStep b = (none, some ⟨b - 0xC0, 1, 0x80, 0xBF⟩) := by
  rw [utf8LeadStep]
  split_ifs <;> first | omega | rfl

/-- Lead-byte classification: lead E0 restricts the first continuation
byte to A0..BF (no overlong three-byte forms). -/
theorem utf8LeadStep_e0 (b : Nat) (h : b = 0xE0) :
    utf8LeadStep b = (none, some ⟨0, 2, 0xA0, 0xBF⟩) := by
  subst h
  rfl

/-- Lead-byte classification: lead ED restricts the first continuation
byte to 80..9F (no surrogates). -/
theorem utf8LeadStep_ed (b : Nat) (h : b = 0xED) :
    utf8LeadStep b = (none, some ⟨0xD, 2, 0x80, 0x9F⟩) := by
  subst h
  rfl

/-- Lead-byte classification: three-byte leads E1..EC and EE..EF. -/
theorem utf8LeadStep_threeByte (b : Nat) (hlo : 0xE1 ≤ b) (hhi : b ≤ 0xEF)
    (hne : b ≠ 0xED) :
    utf8LeadStep b = (none, some ⟨b - 0xE0, 2, 0x80, 0xBF⟩) := by
  rw [utf8LeadStep]
  split_ifs <;> first | omega | rfl

/-- Lead-byte classification: lead F0 restricts the first continuation
byte to 90..BF (no overlong four-byte forms). -/
theorem utf8LeadStep_f0 (b : Nat) (h : b = 0xF0) :
    utf8LeadStep b = (none, some ⟨0, 3, 0x90, 0xBF⟩) := by
  subst h
  rfl

/-- Lead-byte classification: four-byte leads F1..F3. -/
theorem utf8LeadStep_fourByte (b : Nat) (hlo : 0xF1 ≤ b) (hhi : b ≤ 0xF3) :
    utf8LeadStep b = (none, some ⟨b - 0xF0, 3, 0x80, 0xBF⟩) := by
  rw [utf8LeadStep]
  split_ifs <;> first | omega | rfl

/-- Lead-byte classification: lead F4 restricts the first continuation
byte to 80..8F (no values past 0x10FFFF). -/
theorem utf8LeadStep_f4 (b : Nat) (h : b = 0xF4) :
    utf8LeadStep b = (none, some ⟨4, 3, 0x80, 0x8F⟩) := by
  subst h
  rfl

/-- The decoder consumes the UTF-8 encoding of one scalar value and
emits exactly that character. -/
theorem utf8DecodeAux_encodeChar (c : Char) (rest : List Nat) :
    utf8DecodeAux none (utf8EncodeChar c ++ rest) = c :: utf8DecodeAux none rest := by
  have hv : c.toNat < 0xd800 ∨ (0xdfff < c.toNat ∧ c.toNat < 0x110000) := c.valid
  have hofn : Char.ofNat c.toNat = c := Char.ofNat_toNat c
  rw [utf8EncodeChar]
  by_cases h1 : c.toNat < 0x80
  · rw [if_pos h1]
    show utf8DecodeAux none (c.toNat :: rest) = _
    rw [utf8DecodeAux_none_cons]
    have hstep := utf8LeadStep_ascii c.toNat h1
    rw [hstep, hofn]
  · rw [if_neg h1]
    by_cases h2 : c.toNat < 0x800
    · -- two-byte sequence
      rw [if_pos h2]
      show utf8DecodeAux none ((0xC0 + c.toNat / 64) :: (0x80 + c.toNat % 64) :: rest) = _
      rw [utf8DecodeAux_none_cons]
      have hstep := utf8LeadStep_twoByte (0xC0 + c.toNat / 64) (by omega) (by omega)
      rw [hstep]
      show utf8DecodeAux (some ⟨0xC0 + c.toNat / 64 - 0xC0, 1, 0x80, 0xBF⟩)
        ((0x80 + c.toNat % 64) :: rest) = _
      rw [utf8DecodeAux_pending_cons, if_pos ⟨by omega, by omega⟩, if_pos (by omega)]
      have harith : (0xC0 + c.toNat / 64 - 0xC0) * 64 + (0x80 + c.toNat % 64 - 0x80)
          = c.toNat := by omega
      rw [harith, hofn]
    · rw [if_neg h2]
      by_cases h3 : c.toNat < 0x10000
      · -- three-byte sequence
        rw [if_pos h3]
        show utf8DecodeAux none ((0xE0 + c.toNat / 4096) :: (0x80 + c.toNat / 64 % 64)
          :: (0x80 + c.toNat % 64) :: rest) = _
        by_cases hE0 : c.toNat < 0x1000
        · -- lead byte E0, restricted first continuation
          have hstep := utf8LeadStep_e0 (0xE0 + c.toNat / 4096) (by omega)
          rw [utf8DecodeAux_none_cons, hstep]
          show utf8DecodeAux (some ⟨0, 2, 0xA0, 0xBF⟩)
            ((0x80 + c.toNat / 64 % 64) :: (0x80 + c.toNat % 64) :: rest) = _
          rw [utf8DecodeAux_pending_cons, if_pos ⟨by omega, by omega⟩, if_neg (by omega)]
          show utf8DecodeAux (some ⟨0 * 64 + (0x80 + c.toNat / 64 % 64 - 0x80), 1, 0x80, 0xBF⟩)
            ((0x80 + c.toNat % 64) :: rest) = _
          rw [utf8DecodeAux_pending_cons, if_pos ⟨by omega, by omega⟩, if_pos (by omega)]
          have harith : (0 * 64 + (0x80 + c.toNat / 64 % 64 - 0x80)) * 64
              + (0x80 + c.toNat % 64 - 0x80) = c.toNat := by omega
          rw [harith, hofn]
        · by_cases hED : c.toNat / 4096 = 13
          · -- lead byte ED, restricted first continuation (no surrogates)
            have hstep := utf8LeadStep_ed (0xE0 + c.toNat / 4096) (by omega)
            rw [utf8DecodeAux_none_cons, hstep]
            show utf8DecodeAux (some ⟨0xD, 2, 0x80, 0x9F⟩)
              ((0x80 + c.toNat / 64 % 64) :: (0x80 + c.toNat % 64) :: rest) = _
            rw [utf8DecodeAux_pending_cons, if_pos ⟨by omega, by omega⟩, if_neg (by omega)]
            show utf8DecodeAux (some ⟨0xD * 64 + (0x80 + c.toNat / 64 % 64 - 0x80), 1, 0x80, 0xBF⟩)
              ((0x80 + c.toNat % 64) :: rest) = _
            rw [utf8DecodeAux_pending_cons, if_pos ⟨by omega, by omega⟩, if_pos (by omega)]
            have harith : (0xD * 64 + (0x80 + c.toNat / 64 % 64 - 0x80)) * 64
                + (0x80 + c.toNat % 64 - 0x80) = c.toNat := by omega
            rw [harith, hofn]
          · -- lead bytes E1..EC and EE..EF
            have hstep := utf8LeadStep_threeByte (0xE0 + c.toNat / 4096) (by omega) (by omega) (by omega)
            rw [utf8DecodeAux_none_cons, hstep]
            show utf8DecodeAux (some ⟨0xE0 + c.toNat / 4096 - 0xE0, 2, 0x80, 0xBF⟩)
              ((0x80 + c.toNat / 64 % 64) :: (0x80 + c.toNat % 64) :: rest) = _
            rw [utf8DecodeAux_pending_cons, if_pos ⟨by omega, by omega⟩, if_neg (by omega)]
            show utf8DecodeAux (some ⟨(0xE0 + c.toNat / 4096 - 0xE0) * 64
                + (0x80 + c.toNat / 64 % 64 - 0x80), 1, 0x80, 0xBF⟩)
              ((0x80 + c.toNat % 64) :: rest) = _
            rw [utf8DecodeAux_pending_cons, if_pos ⟨by omega, by omega⟩, if_pos (by omega)]
            have harith : ((0xE0 + c.toNat / 4096 - 0xE0) * 64
                + (0x80 + c.toNat / 64 % 64 - 0x80)) * 64
                + (0x80 + c.toNat % 64 - 0x80) = c.toNat := by omega
            rw [harith, hofn]
      · -- four-byte sequence
        rw [if_neg h3]
        show utf8DecodeAux none ((0xF0 + c.toNat / 262144) :: (0x80 + c.toNat / 4096 % 64)
          :: (0x80 + c.toNat / 64 % 64) :: (0x80 + c.toNat % 64) :: rest) = _
        have hlt : c.toNat < 0x110000 := by omega
        by_cases hF0 : c.toNat < 0x40000
        · -- lead byte F0, restricted first continuation
          have hstep := utf8LeadStep_f0 (0xF0 + c.toNat / 262144) (by omega)
          rw [utf8DecodeAux_none_cons, hstep]
          show utf8DecodeAux (some ⟨0, 3, 0x90, 0xBF⟩)
            ((0x80 + c.toNat / 4096 % 64) :: (0x80 + c.toNat / 64 % 64)
              :: (0x80 + c.toNat % 64) :: rest) = _
          rw [utf8DecodeAux_pending_cons, if_pos ⟨by omega, by omega⟩, if_neg (by omega)]
          show utf8DecodeAux (some ⟨0 * 64 + (0x80 + c.toNat / 4096 % 64 - 0x80), 2, 0x80, 0xBF⟩)
            ((0x80 + c.toNat / 64 % 64) :: (0x80 + c.toNat % 64) :: rest) = _
          rw [utf8DecodeAux_pending_cons, if_pos ⟨by omega, by omega⟩, if_neg (by omega)]
          show utf8DecodeAux (some ⟨(0 * 64 + (0x80 + c.toNat / 4096 % 64 - 0x80)) * 64
              + (0x80 + c.toNat / 64 % 64 - 0x80), 1, 0x80, 0xBF⟩)
            ((0x80 + c.toNat % 64) :: rest) = _
          rw [utf8DecodeAux_pending_cons, if_pos ⟨by omega, by omega⟩, if_pos (by omega)]
          have harith : ((0 * 64 + (0x80 + c.toNat / 4096 % 64 - 0x80)) * 64
              + (0x80 + c.toNat / 64 % 64 - 0x80)) * 64
              + (0x80 + c.toNat % 64 - 0x80) = c.toNat := by omega
          rw [harith, hofn]
        · by_cases hF4 : c.toNat < 0x100000
          · -- lead bytes F1..F3
            have hstep := utf8LeadStep_fourByte (0xF0 + c.toNat / 262144) (by omega) (by omega)
            rw [utf8DecodeAux_none_cons, hstep]
            show utf8DecodeAux (some ⟨0xF0 + c.toNat / 262144 - 0xF0, 3, 0x80, 0xBF⟩)
              ((0x80 + c.toNat / 4096 % 64) :: (0x80 + c.toNat / 64 % 64)
                :: (0x80 + c.toNat % 64) :: rest) = _
            rw [utf8DecodeAux_pending_cons, if_pos ⟨by omega, by omega⟩, if_neg (by omega)]
            show utf8DecodeAux (some ⟨(0xF0 + c.toNat / 262144 - 0xF0) * 64
                + (0x80 + c.toNat / 4096 % 64 - 0x80), 2, 0x80, 0xBF⟩)
              ((0x80 + c.toNat / 64 % 64) :: (0x80 + c.toNat % 64) :: rest) = _
            rw [utf8DecodeAux_pending_cons, if_pos ⟨by omega, by omega⟩, if_neg (by omega)]
            show utf8DecodeAux (some ⟨((0xF0 + c.toNat / 262144 - 0xF0) * 64
                + (0x80 + c.toNat / 4096 % 64 - 0x80)) * 64
                + (0x80 + c.toNat / 64 % 64 - 0x80), 1, 0x80, 0xBF⟩)
              ((0x80 + c.toNat % 64) :: rest) = _
            rw [utf8DecodeAux_pending_cons, if_pos ⟨by omega, by omega⟩, if_pos (by omega)]
            have harith : (((0xF0 + c.toNat / 262144 - 0xF0) * 64
                + (0x80 + c.toNat / 4096 % 64 - 0x80)) * 64
                + (0x80 + c.toNat / 64 % 64 - 0x80)) * 64
                + (0x80 + c.toNat % 64 - 0x80) = c.toNat := by omega
            rw [harith, hofn]
          · -- lead byte F4, restricted first continuation
            have hstep := utf8LeadStep_f4 (0xF0 + c.toNat / 262144) (by omega)
            rw [utf8DecodeAux_none_cons, hstep]
            show utf8DecodeAux (some ⟨4, 3, 0x80, 0x8F⟩)
              ((0x80 + c.toNat / 4096 % 64) :: (0x80 + c.toNat / 64 % 64)
                :: (0x80 + c.toNat % 64) :: rest) = _
            rw [utf8DecodeAux_pending_cons, if_pos ⟨by omega, by omega⟩, if_neg (by omega)]
            show utf8DecodeAux (some ⟨4 * 64 + (0x80 + c.toNat / 4096 % 64 - 0x80), 2, 0x80, 0xBF⟩)
              ((0x80 + c.toNat / 64 % 64) :: (0x80 + c.toNat % 64) :: rest) = _
            rw [utf8DecodeAux_pending_cons, if_pos ⟨by omega, by omega⟩, if_neg (by omega)]
            show utf8DecodeAux (some ⟨(4 * 64 + (0x80 + c.toNat / 4096 % 64 - 0x80)) * 64
                + (0x80 + c.toNat / 64 % 64 - 0x80), 1, 0x80, 0xBF⟩)
              ((0x80 + c.toNat % 64) :: rest) = _
            rw [utf8DecodeAux_pending_cons, if_pos ⟨by omega, by omega⟩, if_pos (by omega)]
            have harith : ((4 * 64 + (0x80 + c.toNat / 4096 % 64 - 0x80)) * 64
                + (0x80 + c.toNat / 64 % 64 - 0x80)) * 64
                + (0x80 + c.toNat % 64 - 0x80) = c.toNat := by omega
            rw [harith, hofn]

/-- Decoding the concatenated encodings of a list of characters yields
those characters before whatever the remaining bytes decode to. -/
theorem utf8DecodeAux_encode_append (l : List Char) (rest : List Nat) :
    utf8DecodeAux none (l.foldr (fun c acc => utf8EncodeChar c ++ acc) [] ++ rest)
      = l ++ utf8DecodeAux none rest := by
  induction l with
  | nil => rfl
  | cons c cs ih =>
    simp only [List.foldr_cons]
    rw [List.append_assoc, utf8DecodeAux_encodeChar, ih, List.cons_append]

/-- Valid UTF-8 text survives `decode("utf-8", "ignore")` unchanged:
for every string, decoding its UTF-8 encoding returns it exactly. -/
theorem utf8DecodeIgnore_utf8Encode (s : String) :
    utf8DecodeIgnore (utf8Encode s) = s := by
  cases s with
  | mk data =>
    show String.mk (utf8DecodeAux none (utf8Encode (String.mk data))) = String.mk data
    have h := utf8DecodeAux_encode_append data []
    have h2 : utf8DecodeAux none ([] : List Nat) = [] := rfl
    rw [h2, List.append_nil] at h
    have he : utf8Encode (String.mk data)
        = data.foldr (fun c acc => utf8EncodeChar c ++ acc) [] := rfl
    rw [he, h]
    simp

/-- Claim C1: with both dates given as non-empty strings, the query
builder sets the start-date field of the single
Scheduled-Procedure-Step item to the start date, a literal hyphen and
the end date, byte for byte; with only the start date given, the field
equals the start date exactly. The `dataset is None` path of
`get_worklist_dataset` builds the same query. -/
theorem C1_date_range_construction (s e : String) (ed pn m : Option String)
    (hs : s ≠ "") (he : e ≠ "") (hed : pyTruthy ed = false) :
    (buildFindQuery (some s) (some e) pn m).scheduledProcedureStepSequence.map
        FindSps.scheduledProcedureStepStartDate = [s ++ "-" ++ e]
    ∧ (buildFindQuery (some s) ed pn m).scheduledProcedureStepSequence.map
        FindSps.scheduledProcedureStepStartDate = [s]
    ∧ getWorklistDatasetQuery none (some s) (some e) pn m
        = buildFindQuery (some s) (some e) pn m := by
  have h1 : pyTruthy (some s) = true := by simp [pyTruthy, hs]
  have h2 : pyTruthy (some e) = true := by simp [pyTruthy, he]
  refine ⟨?_, ?_, rfl⟩
  · simp [buildFindQuery, spsStartDateField, h1, h2]
  · simp [buildFindQuery, spsStartDateField, h1, hed]

/-- Witness for C1 at start `20250101`, end `20250107`. -/
theorem C1_witness :
    ("20250101" : String) ≠ "" ∧ ("20250107" : String) ≠ ""
    ∧ pyTruthy none = false
    ∧ (buildFindQuery (some "20250101") (some "20250107")
        none none).scheduledProcedureStepSequence.map
        FindSps.scheduledProcedureStepStartDate = ["20250101-20250107"]
    ∧ (buildFindQuery (some "20250101") none
        none none).scheduledProcedureStepSequence.map
        FindSps.scheduledProcedureStepStartDate = ["20250101"] := by
  have h := C1_date_range_construction "20250101" "20250107" none none none
    (by decide) (by decide) rfl
  exact ⟨by decide, by decide, rfl, h.1, h.2.1⟩

/-- Claim C2: when no patient-name filter is supplied, the query
builder sets PatientName to the literal string `*`; when a patient
name is supplied, PatientName equals it exactly. -/
theorem C2_universal_match_default (sd ed m : Option String) :
    (buildFindQuery sd ed none m).patientName = "*"
    ∧ ∀ p : String, (buildFindQuery sd ed (some p) m).patientName = p :=
  ⟨rfl, fun _ => rfl⟩

/-- Claim C3: with an accepted association, a peer echo status of `0`
is reported to the caller as success and any non-zero status as a
failure carrying exactly that status; exactly one echo request is sent
(no retry). -/
theorem C3_echo_status_reporting (s : Nat) (hs : s ≠ 0) :
    cEchoModel ⟨true, some 0⟩ = (EchoOutcome.returned 0, 1)
    ∧ classifyEchoStatus 0 = EchoReport.success
    ∧ cEchoModel ⟨true, some s⟩ = (EchoOutcome.returned s, 1)
    ∧ classifyEchoStatus s = EchoReport.operationFailed s := by
  refine ⟨rfl, rfl, rfl, ?_⟩
  simp [classifyEchoStatus, hs]

/-- Witness for C3 at the non-zero status `0xA700`. -/
theorem C3_witness :
    (0xA700 : Nat) ≠ 0
    ∧ cEchoModel ⟨true, some 0xA700⟩ = (EchoOutcome.returned 0xA700, 1)
    ∧ classifyEchoStatus 0xA700 = EchoReport.operationFailed 0xA700 := by
  have h := C3_echo_status_reporting 0xA700 (by decide)
  exact ⟨by decide, h.2.2.1, h.2.2.2⟩

/-- Counterexample for C4: the byte `0xFF` is not valid UTF-8, so by
the claim the projection of a non-Pixel-Data element holding it should
be the placeholder `[Binary data with length 1 bytes]`; the code
instead decodes with the `ignore` error handler, dropping the byte and
yielding the empty string. -/
theorem C4_counterexample :
    elemEntry (DElem.bytesElem "Overlay Data" [255])
      = ("Overlay Data", JValue.jstr "")
    ∧ ("" : String) ≠ binaryPlaceholder 1
    ∧ binaryPlaceholder 1 = "[Binary data with length 1 bytes]" :=
  ⟨rfl, by decide, rfl⟩

/-- Claim C4 as amended: a binary element named `Pixel Data` is always
projected to the length placeholder, never decoded; every other binary
element is projected to the CPython `utf-8`/`ignore` decoding of its
bytes — which equals the exact UTF-8 decoding whenever the bytes are
valid UTF-8 text, and a lossy decoding with the undecodable bytes
dropped (never the placeholder branch) otherwise. -/
theorem C4_binary_projection (name : String) (b : List Nat) :
    (name = "Pixel Data" →
      elemEntry (DElem.bytesElem name b)
        = (name, JValue.jstr (binaryPlaceholder b.length)))
    ∧ (name ≠ "Pixel Data" →
      elemEntry (DElem.bytesElem name b)
        = (name, JValue.jstr (utf8DecodeIgnore b)))
    ∧ ∀ s : String, utf8DecodeIgnore (utf8Encode s) = s := by
  refine ⟨?_, ?_, utf8DecodeIgnore_utf8Encode⟩
  · intro h
    simp [elemEntry, bytesEntryValue, h]
  · intro h
    simp [elemEntry, bytesEntryValue, h]

/-- Witness for C4 at a Pixel-Data element of two bytes and at a
non-Pixel-Data element holding valid UTF-8 text. -/
theorem C4_witness :
    elemEntry (DElem.bytesElem "Pixel Data" [65, 66])
      = ("Pixel Data", JValue.jstr "[Binary data with length 2 bytes]")
    ∧ ("Overlay Data" : String) ≠ "Pixel Data"
    ∧ elemEntry (DElem.bytesElem "Overlay Data" [65, 66])
      = ("Overlay Data", JValue.jstr "AB")
    ∧ utf8DecodeIgnore (utf8Encode "AB") = "AB" := by
  have h1 := (C4_binary_projection "Pixel Data" [65, 66]).1 rfl
  have h2 := (C4_binary_projection "Overlay Data" [65, 66]).2.1 (by decide)
  have h3 := (C4_binary_projection "Overlay Data" [65, 66]).2.2 "AB"
  exact ⟨h1.trans (by rfl), by decide, h2.trans (by rfl), h3⟩

/-- Counterexample for C5: for a worklist item with no PatientName, the
JSON projection of `display_worklist` yields the string `N/A`, not
null. -/
theorem C5_counterexample :
    (displayWorklistJsonItem emptyDisplayItem).patientName = JValue.jstr "N/A"
    ∧ JValue.jstr "N/A" ≠ JValue.jnull :=
  ⟨rfl, fun h => JValue.noConfusion h⟩

/-- Claim C5 as amended: `display_worklist` maps an absent attribute to
the literal string `N/A` in both output formats — the JSON projection
uses the string `N/A` (via the `getattr` default), not null, and the
text display prints `N/A`. -/
theorem C5_absent_attribute_markers (it : WorklistItemData) :
    (it.patientName = none →
      (displayWorklistJsonItem it).patientName = JValue.jstr "N/A"
      ∧ "  Patient: N/A" ∈ displayWorklistTextLines it)
    ∧ (it.patientID = none →
      (displayWorklistJsonItem it).patientID = JValue.jstr "N/A"
      ∧ "  Patient ID: N/A" ∈ displayWorklistTextLines it)
    ∧ (it.accessionNumber = none →
      (displayWorklistJsonItem it).accessionNumber = JValue.jstr "N/A"
      ∧ "  Accession: N/A" ∈ displayWorklistTextLines it)
    ∧ (it.requestedProcedureDescription = none →
      (displayWorklistJsonItem it).requestedProcedureDescription = JValue.jstr "N/A"
      ∧ "  Description: N/A" ∈ displayWorklistTextLines it)
    ∧ (it.studyInstanceUID = none →
      (displayWorklistJsonItem it).studyInstanceUID = JValue.jstr "N/A") := by
  refine ⟨?_, ?_, ?_, ?_, ?_⟩ <;> intro h <;>
    simp [displayWorklistJsonItem, jsonAttr, displayWorklistTextLines, h]

/-- Witness for C5 at a worklist item with every attribute absent. -/
theorem C5_witness :
    emptyDisplayItem.patientName = none
    ∧ (displayWorklistJsonItem emptyDisplayItem).patientID = JValue.jstr "N/A"
    ∧ "  Patient: N/A" ∈ displayWorklistTextLines emptyDisplayItem := by
  have h1 := (C5_absent_attribute_markers emptyDisplayItem).1 rfl
  have h2 := (C5_absent_attribute_markers emptyDisplayItem).2.1 rfl
  exact ⟨rfl, h2.1, h1.2⟩

/-- Claim C6: a C-FIND exchange in which the peer yields three pending
responses each carrying a dataset, then one terminal success status
with no dataset, returns exactly those three datasets in order and
ends without error. -/
theorem C6_find_streaming (d1 d2 d3 : WorklistItemData) (s1 s2 s3 : Nat) :
    getWorklistModel true
      [⟨some s1, some d1⟩, ⟨some s2, some d2⟩, ⟨some s3, some d3⟩, ⟨some 0, none⟩]
      = Except.ok [d1, d2, d3] := rfl

/-- Counterexample for C7: a C-FIND exchange that fails after one
result (falsy status) returns the plain list of results, with no
failure alongside — the caller-visible value is identical to that of a
fully successful exchange returning the same item, so the failure is
not returned to the caller. -/
theorem C7_counterexample :
    getWorklistModel true [⟨some 0xFF00, some sampleFindItem⟩, ⟨none, none⟩]
      = Except.ok [sampleFindItem]
    ∧ getWorklistModel true [⟨some 0xFF00, some sampleFindItem⟩, ⟨none, none⟩]
      = getWorklistModel true [⟨some 0xFF00, some sampleFindItem⟩, ⟨some 0, none⟩] :=
  ⟨rfl, rfl⟩

/-- Claim C7 as amended: the results received before a falsy status are
preserved, in order, in the returned list (nothing is discarded); the
failure itself is only logged, and the returned value carries no
failure indication. -/
theorem C7_results_before_failure_kept (ds : List WorklistItemData)
    (tail : List FindResponse) :
    getWorklistModel true
      ((ds.map fun d => ⟨some 0xFF00, some d⟩) ++ ⟨none, none⟩ :: tail)
      = Except.ok (ds ++ collectFindResponses tail) := by
  show Except.ok (collectFindResponses _) = _
  congr 1
  induction ds with
  | nil => simp [collectFindResponses]
  | cons d rest ih => simpa [collectFindResponses] using ih

/-- Claim C8: when the peer rejects the association, `send_c_store` is
never invoked, the function reports failure (`False`) to its caller,
and the diagnostic it emits is the association failure naming the
endpoint and remote AE title. -/
theorem C8_store_association_rejected (peer : StorePeer) (ip : String) (port : Nat)
    (rae : String) (h : peer.acceptAssociation = false) :
    (sendWorklistItemModel peer ip port rae).cStoreInvoked = false
    ∧ (sendWorklistItemModel peer ip port rae).result = false
    ∧ (sendWorklistItemModel peer ip port rae).diagnostic
        = some (StoreDiagnostic.associationFailed ip port rae) := by
  simp [sendWorklistItemModel, h]

/-- Witness for C8 at a rejecting peer and the repository's default
endpoint. -/
theorem C8_witness :
    (StorePeer.mk false none).acceptAssociation = false
    ∧ (sendWorklistItemModel ⟨false, none⟩ "10.10.0.1" 4242 "MERCURE").cStoreInvoked = false
    ∧ (sendWorklistItemModel ⟨false, none⟩ "10.10.0.1" 4242 "MERCURE").result = false := by
  have h := C8_store_association_rejected ⟨false, none⟩ "10.10.0.1" 4242 "MERCURE" rfl
  exact ⟨rfl, h.1, h.2.1⟩

/-- Counterexample for C9: a batch invocation whose single upload fails
(zero successes) still exits with code `0`, not `1`. -/
theorem C9_counterexample :
    cliMainExit (CliInvocation.batchCmd true true [false]) = 0
    ∧ batchSuccessCount [false] = 0 :=
  ⟨rfl, rfl⟩

/-- Claim C9 as amended: `create`, `list` and `get` exit `0` exactly
when their operation succeeds and `1` when it fails, and a missing
subcommand exits `1`; `batch` exits `1` only when the input file cannot
be read or does not hold a list — individual upload failures within a
batch leave the exit code `0`. -/
theorem C9_exit_codes (u q d f l : Bool) (ups : List Bool) :
    cliMainExit (CliInvocation.createCmd u) = (if u then 1 else 0)
    ∧ cliMainExit (CliInvocation.listCmd q) = (if q then 1 else 0)
    ∧ cliMainExit (CliInvocation.getCmd d) = (if d then 1 else 0)
    ∧ cliMainExit (CliInvocation.batchCmd f l ups) = (if f && l then 0 else 1)
    ∧ cliMainExit CliInvocation.noCommand = 1 :=
  ⟨by cases u <;> rfl, by cases q <;> rfl, by cases d <;> rfl,
   by cases f <;> cases l <;> rfl, rfl⟩

/-- Counterexample for C10: with a common argument assignment whose
station name is `STATION2` (and identical generated identifiers), the
two constructors disagree — src/worklist.py sets
ScheduledStationAETitle to `STATION2` while the manager copy leaves its
separate AE-title argument at the default `STATION1`. -/
theorem C10_counterexample :
    createWorklistItemWorklist stationTwoArgs "uidA" "uidB" "uidC"
      ≠ createWorklistItemManager stationTwoArgs "STATION1" "uidA" "uidB" "uidC"
    ∧ (createWorklistItemWorklist stationTwoArgs
        "uidA" "uidB" "uidC").sps.scheduledStationAETitle = "STATION2"
    ∧ (createWorklistItemManager stationTwoArgs "STATION1"
        "uidA" "uidB" "uidC").sps.scheduledStationAETitle = "STATION1" := by
  refine ⟨?_, rfl, rfl⟩
  decide

/-- Claim C10 as amended: for every common argument assignment and
identical generated identifiers the two constructors agree on every
attribute except ScheduledStationAETitle, which src/worklist.py takes
from the station name and the manager copy from its separate AE-title
argument; they agree exactly when those two coincide (in particular
the manager copy called with the station name as AE title reproduces
src/worklist.py). -/
theorem C10_constructors_agree_except_ae_title (a : WorklistArgs)
    (aet u1 u2 u3 : String) :
    setStationAeTitle (createWorklistItemManager a aet u1 u2 u3) ""
      = setStationAeTitle (createWorklistItemWorklist a u1 u2 u3) ""
    ∧ (createWorklistItemWorklist a u1 u2 u3).sps.scheduledStationAETitle = a.stationName
    ∧ (createWorklistItemManager a aet u1 u2 u3).sps.scheduledStationAETitle = aet
    ∧ createWorklistItemManager a a.stationName u1 u2 u3
        = createWorklistItemWorklist a u1 u2 u3 :=
  ⟨rfl, rfl, rfl, rfl⟩
